import Mathlib

/-!
Verification of the MumsDisco playlist ledger (`mums_disco_app.py`).

Shallow embedding of the TinyDB-backed catalog store (`song_exists`,
`add_song_to_db`, `get_all_songs`), the Spotify track resolver
(`get_spotify_token`, `search_spotify_song`), the Google Sheets backup
(`backup_to_sheets`) and the confirm/search control flow of `main`.

Conventions of the embedding:
* the TinyDB table is a `List Song` in insertion order (`db.all()` returns
  documents in insertion order and `db.insert` appends);
* `datetime.now().isoformat()` is passed in as an explicit `now : String`;
* Python `str.lower()` is modelled by `lowerStr` (per-character ASCII case
  folding via `Char.toLower`);
* Python string comparison, as used by `sorted(..., key=..., reverse=True)`,
  is modelled by `strLe`, code-point lexicographic order on the characters;
* Python `sorted` with `reverse=True` is the stable descending sort by the
  key; it is modelled by `List.insertionSort` with the non-strict descending
  relation `songDescOrder`, which is extensionally the same function (a
  stable sort by a total preorder is unique);
* network responses and the Google Sheets environment are passed in as
  explicit data (`SpResponse`, `BackupEnv`) in place of the I/O they stand
  for.
-/

namespace MumsDisco

/-- Python `str.lower()` (ASCII case folding, character by character). -/
def lowerStr (s : String) : String := String.mk (s.data.map Char.toLower)

/-- Code-point lexicographic comparison of character lists, the order Python
uses when comparing the strings produced as sort keys. -/
def lexLe : List Char → List Char → Bool
  | [], _ => true
  | _ :: _, [] => false
  | a :: as, b :: bs =>
    if a.toNat < b.toNat then true
    else if b.toNat < a.toNat then false
    else lexLe as bs

/-- Python `a <= b` on strings. -/
def strLe (a b : String) : Bool := lexLe a.data b.data

/-- A candidate record as produced by the Spotify search: the dict built in
`search_spotify_song` (keys `title`, `artist`, `album`, `image_url`,
`spotify_url`, `preview_url`). -/
structure Candidate where
  title : String
  artist : String
  album : String
  image_url : Option String
  spotify_url : String
  preview_url : Option String
deriving DecidableEq, Repr

/-- A stored document of the TinyDB table: a candidate's fields plus the
store-assigned `added_at` and `id`.  `added_at` is optional so that a
document missing the key (the `x.get("added_at", "")` fallback in
`get_all_songs`) is representable. -/
structure Song where
  title : String
  artist : String
  album : String
  image_url : Option String
  spotify_url : String
  preview_url : Option String
  added_at : Option String
  id : Nat
deriving DecidableEq, Repr

/-- The per-document test of `song_exists`:
`x.lower() == title.lower()` on `title` and `artist`, conjoined. -/
def matchesSong (s : Song) (title artist : String) : Bool :=
  lowerStr s.title == lowerStr title && lowerStr s.artist == lowerStr artist

/-- `song_exists(db, title, artist)`: search the table for a document whose
`title` and `artist` both match case-insensitively, and report whether the
result list is non-empty (`len(existing) > 0`). -/
def song_exists (db : List Song) (title artist : String) : Bool :=
  let existing := db.filter fun s => matchesSong s title artist
  decide (existing.length > 0)

/-- The number of stored documents matching a `(title, artist)` pair
case-insensitively (`len(existing)` in `song_exists`). -/
def countMatching (db : List Song) (title artist : String) : Nat :=
  (db.filter fun s => matchesSong s title artist).length

/-- The `song_entry` dict built by `add_song_to_db`:
`{**song_data, "added_at": now, "id": n}`. -/
def mkEntry (c : Candidate) (now : String) (n : Nat) : Song :=
  { title := c.title, artist := c.artist, album := c.album,
    image_url := c.image_url, spotify_url := c.spotify_url,
    preview_url := c.preview_url, added_at := some now, id := n }

/-- `add_song_to_db(db, song_data)`: return `false` without writing when
`song_exists`, otherwise insert `{**song_data, "added_at":
datetime.now().isoformat(), "id": len(db.all()) + 1}` and return `true`.
The pair is (table after the call, returned boolean). -/
def add_song_to_db (db : List Song) (song_data : Candidate) (now : String) :
    List Song × Bool :=
  if song_exists db song_data.title song_data.artist then (db, false)
  else (db ++ [mkEntry song_data now (db.length + 1)], true)

/-- The sort key of `get_all_songs`: `x.get("added_at", "")`. -/
def sortKey (s : Song) : String := s.added_at.getD ""

/-- The order in which `get_all_songs` emits documents: descending by
`sortKey` (this is `sorted(..., key=..., reverse=True)`). -/
def songDescOrder (a b : Song) : Prop := strLe (sortKey b) (sortKey a) = true

instance decSongDescOrder : DecidableRel songDescOrder :=
  fun a b => instDecidableEqBool (strLe (sortKey b) (sortKey a)) true

/-- `get_all_songs(db)`: all documents, sorted newest first by
`x.get("added_at", "")` (stable descending sort). -/
def get_all_songs (db : List Song) : List Song :=
  List.insertionSort songDescOrder db

/-- A sequence of `add_song_to_db` calls threaded through the store
(the only way the app ever writes to the table). -/
def runInserts (db : List Song) : List (Candidate × String) → List Song
  | [] => db
  | (c, now) :: rest => runInserts (add_song_to_db db c now).1 rest

/-- One track object of the Spotify search response
(`data["tracks"]["items"][i]`), reduced to the fields the code reads. -/
structure SpTrack where
  name : String
  artist_names : List String
  album_name : String
  album_images : List String
  external_url : String
  preview_url : Option String
deriving DecidableEq, Repr

/-- The Spotify search response: HTTP status and `data["tracks"]["items"]`. -/
structure SpResponse where
  status : Nat
  items : List SpTrack
deriving DecidableEq, Repr

/-- The query parameters `search_spotify_song` sends to `/v1/search`. -/
def search_params (song_name : String) : List (String × String) :=
  [("q", song_name), ("type", "track"), ("limit", "1")]

/-- The dict `search_spotify_song` builds from the first returned track. -/
def track_to_candidate (track : SpTrack) : Candidate :=
  { title := track.name,
    artist := String.intercalate ", " track.artist_names,
    album := track.album_name,
    image_url := track.album_images.head?,
    spotify_url := track.external_url,
    preview_url := track.preview_url }

/-- `search_spotify_song(song_name, token)` applied to the response the
network returns for `search_params song_name`: `None` on a falsy token, a
non-200 status or an empty item list, else the first track's dict. -/
def search_spotify_song (song_name : String) (token : String)
    (resp : SpResponse) : Option Candidate :=
  if token.isEmpty then none
  else if resp.status = 200 then
    match resp.items with
    | [] => none
    | track :: _ => some (track_to_candidate track)
  else none

/-- `get_spotify_token()` applied to the token endpoint's response: the
`access_token` field on status 200, else `None`. -/
def get_spotify_token (status : Nat) (body_access_token : String) :
    Option String :=
  if status = 200 then some body_access_token else none

/-- Python truthiness of the optional token string (`if token:`). -/
def pyTruthy (x : Option String) : Bool :=
  match x with
  | none => false
  | some s => !s.isEmpty

/-- Outcome of the search-button handler in `main`. -/
inductive SearchOutcome where
  | found : Candidate → SearchOutcome
  | noMatch : SearchOutcome
  | serviceUnavailable : SearchOutcome
deriving DecidableEq, Repr

/-- The search-button branch of `main`: fetch a token; on a truthy token
run the search and report `found`/`noMatch`, otherwise report the Spotify
service as unavailable. -/
def handle_search (song_input : String) (tokenStatus : Nat)
    (tokenBody : String) (resp : SpResponse) : SearchOutcome :=
  let token := get_spotify_token tokenStatus tokenBody
  if pyTruthy token then
    match search_spotify_song song_input (token.getD "") resp with
    | some c => SearchOutcome.found c
    | none => SearchOutcome.noMatch
  else SearchOutcome.serviceUnavailable

/-- The user-facing strings of `LANGUAGES` that the claims touch. -/
structure LangStrings where
  already_exists : String
  song_added : String
  add_failed : String
  no_songs_found : String
  spotify_error : String
deriving DecidableEq, Repr

/-- `LANGUAGES["en"]`, restricted to the fields above. -/
def LANGUAGES_en : LangStrings :=
  { already_exists := "This song is already in the playlist!",
    song_added := "Song added to playlist! 🎉",
    add_failed := "Failed to add song to playlist.",
    no_songs_found := "No songs found. Try a different search term.",
    spotify_error := "Unable to connect to Spotify. Please try again later." }

/-- `LANGUAGES["da"]`, restricted to the fields above. -/
def LANGUAGES_da : LangStrings :=
  { already_exists := "Denne sang er allerede i playlisten!",
    song_added := "Sang tilføjet til playliste! 🎉",
    add_failed := "Kunne ikke tilføje sang til playliste.",
    no_songs_found := "Ingen sange fundet. Prøv et andet søgeord.",
    spotify_error := "Kan ikke forbinde til Spotify. Prøv igen senere." }

/-- The error message `main` shows for a search outcome (`None` when a song
was found and the confirmation panel is shown instead). -/
def search_error_message (t : LangStrings) : SearchOutcome → Option String
  | SearchOutcome.found _ => none
  | SearchOutcome.noMatch => some t.no_songs_found
  | SearchOutcome.serviceUnavailable => some t.spotify_error

/-- The environment of `backup_to_sheets`: whether `init_gspread` returned a
client (`gc` is not `None`) and whether the append round-trip raises. -/
structure BackupEnv where
  gcAvailable : Bool
  appendOk : Bool
deriving DecidableEq, Repr

/-- `backup_to_sheets(gc, song_data)`: `False` without a client, `False`
when the remote append raises (the exception is caught and shown), else
`True` after appending one row `[title, artist, album, spotify_url,
song_data.get("added_at", datetime.now().isoformat())]`.  The candidate
`main` passes has no `added_at` key, so the row carries a fresh timestamp
`now2`.  The function never receives or returns the TinyDB table. -/
def backup_to_sheets (env : BackupEnv) (song_data : Candidate)
    (now2 : String) : Bool × Option (List String) :=
  if env.gcAvailable = false then (false, none)
  else if env.appendOk then
    (true, some [song_data.title, song_data.artist, song_data.album,
                 song_data.spotify_url, now2])
  else (false, none)

/-- The message `main` shows after the confirm-yes button. -/
inductive ConfirmMsg where
  | alreadyExists
  | songAdded
  | addFailed
deriving DecidableEq, Repr

/-- What the confirm-yes branch of `main` did: the table afterwards, the
message shown, whether `backup_to_sheets` was called and what it returned. -/
structure ConfirmResult where
  db : List Song
  msg : ConfirmMsg
  backupCalled : Bool
  backupReturn : Option (Bool × Option (List String))
deriving DecidableEq, Repr

/-- The confirm-yes branch of `main`: warn on a duplicate; otherwise call
`add_song_to_db` and, only when it returned `True`, call
`backup_to_sheets` on the already-inserted song. -/
def confirm_add (db : List Song) (song : Candidate) (now now2 : String)
    (env : BackupEnv) : ConfirmResult :=
  if song_exists db song.title song.artist then
    { db := db, msg := ConfirmMsg.alreadyExists,
      backupCalled := false, backupReturn := none }
  else
    let r := add_song_to_db db song now
    if r.2 then
      { db := r.1, msg := ConfirmMsg.songAdded,
        backupCalled := true,
        backupReturn := some (backup_to_sheets env song now2) }
    else
      { db := r.1, msg := ConfirmMsg.addFailed,
        backupCalled := false, backupReturn := none }

/-! Concrete sample data, used to exercise the definitions. -/

/-- The Dancing Queen candidate of the spec's examples. -/
def cDancing : Candidate :=
  { title := "Dancing Queen", artist := "ABBA", album := "Arrival",
    image_url := some "https://i.scdn.co/image/dq",
    spotify_url := "https://open.spotify.com/track/dq",
    preview_url := none }

/-- Dancing Queen again, differing only in letter case. -/
def cDancingUpper : Candidate :=
  { cDancing with title := "DANCING QUEEN", artist := "abba" }

/-- The Waterloo candidate of the spec's examples. -/
def cWaterloo : Candidate :=
  { title := "Waterloo", artist := "ABBA", album := "Waterloo",
    image_url := none, spotify_url := "https://open.spotify.com/track/wl",
    preview_url := none }

/-- Waterloo with a different artist string (same title, not a duplicate). -/
def cWaterlooAgnetha : Candidate :=
  { cWaterloo with
    artist := "ABBA, Agnetha",
    spotify_url := "https://open.spotify.com/track/wl2" }

/-- A stored record with an ISO-8601 `added_at`. -/
def songIso : Song := mkEntry cDancing "2024-05-05T10:00:00" 1

/-- A stored record whose `added_at` is present but not a parseable
timestamp. -/
def songGarbage : Song := mkEntry cWaterloo "not-a-date" 2

/-- A stored record missing the `added_at` key. -/
def songNoDate : Song := { mkEntry cWaterloo "x" 2 with added_at := none }

/-! Helper lemmas about the string order used by `get_all_songs`. -/

theorem lexLe_total : ∀ (a b : List Char), lexLe a b = true ∨ lexLe b a = true
  | [], _ => Or.inl rfl
  | _ :: _, [] => Or.inr rfl
  | a :: as, b :: bs => by
    by_cases h1 : a.toNat < b.toNat
    · left
      simp [lexLe, h1]
    · by_cases h2 : b.toNat < a.toNat
      · right
        simp [lexLe, h1, h2]
      · cases lexLe_total as bs with
        | inl h => left; simp [lexLe, h1, h2, h]
        | inr h => right; simp [lexLe, h1, h2, h]

theorem lexLe_trans : ∀ (a b c : List Char),
    lexLe a b = true → lexLe b c = true → lexLe a c = true
  | [], _, _, _, _ => rfl
  | _ :: _, [], _, hab, _ => by simp [lexLe] at hab
  | _ :: _, _ :: _, [], _, hbc => by simp [lexLe] at hbc
  | a :: as, b :: bs, c :: cs, hab, hbc => by
    simp only [lexLe] at hab hbc ⊢
    by_cases h1 : a.toNat < b.toNat
    · by_cases h2 : b.toNat < c.toNat
      · have h3 : a.toNat < c.toNat := Nat.lt_trans h1 h2
        simp [h3]
      · rw [if_neg h2] at hbc
        by_cases h4 : c.toNat < b.toNat
        · rw [if_pos h4] at hbc
          simp at hbc
        · have h3 : a.toNat < c.toNat := by omega
          simp [h3]
    · rw [if_neg h1] at hab
      by_cases h5 : b.toNat < a.toNat
      · rw [if_pos h5] at hab
        simp at hab
      · rw [if_neg h5] at hab
        by_cases h2 : b.toNat < c.toNat
        · have h3 : a.toNat < c.toNat := by omega
          simp [h3]
        · rw [if_neg h2] at hbc
          by_cases h4 : c.toNat < b.toNat
          · rw [if_pos h4] at hbc
            simp at hbc
          · rw [if_neg h4] at hbc
            have h3 : ¬ a.toNat < c.toNat := by omega
            have h6 : ¬ c.toNat < a.toNat := by omega
            rw [if_neg h3, if_neg h6]
            exact lexLe_trans as bs cs hab hbc

instance totalSongDescOrder : IsTotal Song songDescOrder where
  total a b := lexLe_total (sortKey b).data (sortKey a).data

instance transSongDescOrder : IsTrans Song songDescOrder where
  trans _ _ _ hab hbc := lexLe_trans _ _ _ hbc hab

/-- The empty string is minimal for `strLe`, so in the descending order of
`get_all_songs` a key of `""` can only appear at the end. -/
theorem strLe_empty_left (t : String) : strLe "" t = true := rfl

/-! Helper lemmas about `song_exists`, `countMatching`, `add_song_to_db`. -/

theorem countMatching_nil (t a : String) : countMatching [] t a = 0 := rfl

theorem countMatching_append (db1 db2 : List Song) (t a : String) :
    countMatching (db1 ++ db2) t a =
      countMatching db1 t a + countMatching db2 t a := by
  simp [countMatching, List.filter_append]

theorem countMatching_singleton (s : Song) (t a : String) :
    countMatching [s] t a = if matchesSong s t a then 1 else 0 := by
  simp only [countMatching, List.filter]
  cases h : matchesSong s t a <;> simp [h]

theorem song_exists_eq_count (db : List Song) (t a : String) :
    song_exists db t a = decide (0 < countMatching db t a) := rfl

theorem countMatching_pos_iff (db : List Song) (t a : String) :
    0 < countMatching db t a ↔ ∃ s ∈ db, matchesSong s t a = true := by
  induction db with
  | nil => simp [countMatching_nil]
  | cons s rest ih =>
    have hc : countMatching (s :: rest) t a =
        countMatching [s] t a + countMatching rest t a :=
      countMatching_append [s] rest t a
    rw [hc, countMatching_singleton]
    cases h : matchesSong s t a <;> simp [h, ih]

theorem song_exists_iff (db : List Song) (t a : String) :
    song_exists db t a = true ↔
      ∃ s ∈ db, lowerStr s.title = lowerStr t ∧
        lowerStr s.artist = lowerStr a := by
  rw [song_exists_eq_count]
  simp [countMatching_pos_iff, matchesSong]

theorem countMatching_eq_zero (db : List Song) (t a : String)
    (h : song_exists db t a = false) : countMatching db t a = 0 := by
  rw [song_exists_eq_count] at h
  simp only [decide_eq_false_iff_not, Nat.not_lt, Nat.le_zero] at h
  exact h

theorem song_exists_args_congr (db : List Song) {t1 a1 t2 a2 : String}
    (ht : lowerStr t1 = lowerStr t2) (ha : lowerStr a1 = lowerStr a2) :
    song_exists db t1 a1 = song_exists db t2 a2 := by
  simp only [song_exists, matchesSong, ht, ha]

theorem matchesSong_mkEntry (c : Candidate) (now : String) (n : Nat) :
    matchesSong (mkEntry c now n) c.title c.artist = true := by
  simp [matchesSong, mkEntry]

theorem add_song_to_db_of_exists (db : List Song) (c : Candidate)
    (now : String) (h : song_exists db c.title c.artist = true) :
    add_song_to_db db c now = (db, false) := by
  simp [add_song_to_db, h]

theorem add_song_to_db_of_not_exists (db : List Song) (c : Candidate)
    (now : String) (h : song_exists db c.title c.artist = false) :
    add_song_to_db db c now =
      (db ++ [mkEntry c now (db.length + 1)], true) := by
  simp [add_song_to_db, h]

theorem song_exists_after_add (db : List Song) (c : Candidate)
    (now : String) :
    song_exists (add_song_to_db db c now).1 c.title c.artist = true := by
  cases hd : song_exists db c.title c.artist with
  | true => rw [add_song_to_db_of_exists db c now hd]; exact hd
  | false =>
    rw [add_song_to_db_of_not_exists db c now hd]
    rw [song_exists_iff]
    refine ⟨mkEntry c now (db.length + 1), by simp, ?_, ?_⟩ <;> rfl

theorem get_all_songs_perm (db : List Song) : (get_all_songs db).Perm db :=
  List.perm_insertionSort songDescOrder db

theorem get_all_songs_length (db : List Song) :
    (get_all_songs db).length = db.length :=
  (get_all_songs_perm db).length_eq

/-! Helper lemmas for the sequence-id invariant. -/

theorem add_preserves_ids (db : List Song) (c : Candidate) (now : String)
    (h : db.map Song.id = List.range' 1 db.length) :
    (add_song_to_db db c now).1.map Song.id =
      List.range' 1 (add_song_to_db db c now).1.length := by
  cases hd : song_exists db c.title c.artist with
  | true => rw [add_song_to_db_of_exists db c now hd]; exact h
  | false =>
    rw [add_song_to_db_of_not_exists db c now hd]
    simp only [List.map_append, List.length_append, List.map_cons,
      List.map_nil, List.length_cons, List.length_nil]
    rw [h, List.range'_concat]
    simp [mkEntry, Nat.add_comm]

theorem runInserts_ids (ops : List (Candidate × String)) :
    ∀ db : List Song, db.map Song.id = List.range' 1 db.length →
      (runInserts db ops).map Song.id =
        List.range' 1 (runInserts db ops).length := by
  induction ops with
  | nil => intro db h; exact h
  | cons op rest ih =>
    intro db h
    obtain ⟨c, now⟩ := op
    exact ih _ (add_preserves_ids db c now h)

/-! Claim theorems. -/

/-- C1: `add_song_to_db` first performs the duplicate check on the
candidate's title and artist; on a duplicate it returns `false` and leaves
the table exactly as it was (zero writes), otherwise it appends exactly one
new record carrying `added_at = now` and `id = (count before) + 1` and
returns `true`; in either case every pre-existing record is still present
and unchanged. -/
theorem spec_C1 (db : List Song) (c : Candidate) (now : String) :
    (song_exists db c.title c.artist = true →
      add_song_to_db db c now = (db, false)) ∧
    (song_exists db c.title c.artist = false →
      add_song_to_db db c now =
        (db ++ [{ title := c.title, artist := c.artist, album := c.album,
                  image_url := c.image_url, spotify_url := c.spotify_url,
                  preview_url := c.preview_url, added_at := some now,
                  id := db.length + 1 }], true)) :=
  ⟨add_song_to_db_of_exists db c now, add_song_to_db_of_not_exists db c now⟩

/-- C1 witness: a fresh insert appends one record, a duplicate insert is a
no-op returning false. -/
theorem spec_C1_witness :
    add_song_to_db [] cDancing "2024-06-01T20:00:00" =
      ([mkEntry cDancing "2024-06-01T20:00:00" 1], true) ∧
    add_song_to_db [songIso] cDancing "2024-06-02T20:00:00" =
      ([songIso], false) :=
  ⟨(spec_C1 [] cDancing "2024-06-01T20:00:00").2 (by decide),
   (spec_C1 [songIso] cDancing "2024-06-02T20:00:00").1 (by decide)⟩

/-- C2: `song_exists` is true exactly when some stored record matches both
the title and the artist argument case-insensitively and otherwise
verbatim — no trimming (a leading space defeats the match) — and two
records sharing a title but with different artist strings are not
duplicates of each other: both Waterloo inserts succeed, storing two
records. -/
theorem spec_C2 :
    (∀ (db : List Song) (t a : String),
      song_exists db t a = true ↔
        ∃ s ∈ db, lowerStr s.title = lowerStr t ∧
          lowerStr s.artist = lowerStr a) ∧
    song_exists [songIso] (" " ++ songIso.title) songIso.artist = false ∧
    (add_song_to_db [] cWaterloo "2024-06-01T20:00:00").2 = true ∧
    (add_song_to_db (add_song_to_db [] cWaterloo "2024-06-01T20:00:00").1
      cWaterlooAgnetha "2024-06-01T20:00:01").2 = true ∧
    (add_song_to_db (add_song_to_db [] cWaterloo "2024-06-01T20:00:00").1
      cWaterlooAgnetha "2024-06-01T20:00:01").1.length = 2 :=
  ⟨song_exists_iff, by decide, by decide, by decide, by decide⟩

/-- C2 witness: the characterization applied at a concrete store — a
case-folded duplicate is found. -/
theorem spec_C2_witness :
    song_exists [songIso] "DANCING QUEEN" "abba" = true :=
  (spec_C2.1 [songIso] "DANCING QUEEN" "abba").mpr
    ⟨songIso, by decide, by decide, by decide⟩

/-- C3: starting from the empty table, after any sequence of insert calls
the stored ids read 1, 2, ..., n in insertion order — so each record's id
is the count of records present before it plus one, ids are pairwise
distinct and strictly increasing — and a single insert into the empty
table yields exactly one record with id 1. -/
theorem spec_C3 :
    (∀ ops : List (Candidate × String),
      (runInserts [] ops).map Song.id =
        List.range' 1 (runInserts [] ops).length ∧
      ((runInserts [] ops).map Song.id).Nodup ∧
      List.Pairwise (· < ·) ((runInserts [] ops).map Song.id)) ∧
    (∀ (c : Candidate) (now : String),
      add_song_to_db [] c now = ([mkEntry c now 1], true)) := by
  constructor
  · intro ops
    have h := runInserts_ids ops [] rfl
    refine ⟨h, ?_, ?_⟩
    · rw [h]; exact List.nodup_range' 1 _
    · rw [h]; exact List.pairwise_lt_range' 1 _
  · intro c now
    exact add_song_to_db_of_not_exists [] c now rfl

/-- C5: inserting the same (title, artist) pair twice in sequence when it
was not present before stores exactly one matching record and returns
(true, false). -/
theorem spec_C5 (db : List Song) (c1 c2 : Candidate) (now1 now2 : String)
    (ht : c2.title = c1.title) (ha : c2.artist = c1.artist)
    (h : song_exists db c1.title c1.artist = false) :
    (add_song_to_db db c1 now1).2 = true ∧
    add_song_to_db (add_song_to_db db c1 now1).1 c2 now2 =
      ((add_song_to_db db c1 now1).1, false) ∧
    countMatching (add_song_to_db (add_song_to_db db c1 now1).1 c2 now2).1
      c1.title c1.artist = 1 := by
  have h1 := add_song_to_db_of_not_exists db c1 now1 h
  have hex : song_exists (add_song_to_db db c1 now1).1 c2.title c2.artist
      = true := by
    rw [ht, ha]
    exact song_exists_after_add db c1 now1
  have h2 := add_song_to_db_of_exists (add_song_to_db db c1 now1).1 c2 now2 hex
  refine ⟨by rw [h1], h2, ?_⟩
  rw [h2]
  simp only [h1, countMatching_append, countMatching_singleton,
    matchesSong_mkEntry, if_true,
    countMatching_eq_zero db c1.title c1.artist h]

/-- C5 witness: the double insert exercised on the empty store. -/
theorem spec_C5_witness :
    (add_song_to_db [] cWaterloo "t1").2 = true ∧
    add_song_to_db (add_song_to_db [] cWaterloo "t1").1 cWaterloo "t2" =
      ((add_song_to_db [] cWaterloo "t1").1, false) ∧
    countMatching (add_song_to_db (add_song_to_db [] cWaterloo "t1").1
      cWaterloo "t2").1 cWaterloo.title cWaterloo.artist = 1 :=
  spec_C5 [] cWaterloo cWaterloo "t1" "t2" rfl rfl (by decide)

/-- C6: for two candidates differing only in letter case of title or
artist, once the first has been inserted `song_exists` is true for the
second, an insert of the second returns false and leaves the table as it
was, and the `get_all_songs` length is unchanged. -/
theorem spec_C6 (db : List Song) (c1 c2 : Candidate) (now1 now2 : String)
    (ht : lowerStr c1.title = lowerStr c2.title)
    (ha : lowerStr c1.artist = lowerStr c2.artist) :
    song_exists (add_song_to_db db c1 now1).1 c2.title c2.artist = true ∧
    add_song_to_db (add_song_to_db db c1 now1).1 c2 now2 =
      ((add_song_to_db db c1 now1).1, false) ∧
    (get_all_songs
        (add_song_to_db (add_song_to_db db c1 now1).1 c2 now2).1).length =
      (get_all_songs (add_song_to_db db c1 now1).1).length := by
  have hex : song_exists (add_song_to_db db c1 now1).1 c2.title c2.artist
      = true := by
    rw [song_exists_args_congr _ ht.symm ha.symm]
    exact song_exists_after_add db c1 now1
  have h2 := add_song_to_db_of_exists (add_song_to_db db c1 now1).1 c2 now2 hex
  exact ⟨hex, h2, by rw [h2]⟩

/-- C6 witness: DANCING QUEEN / abba is rejected once Dancing Queen / ABBA
is stored, with the listing length unchanged. -/
theorem spec_C6_witness :
    song_exists (add_song_to_db [] cDancing "t1").1 cDancingUpper.title
      cDancingUpper.artist = true ∧
    add_song_to_db (add_song_to_db [] cDancing "t1").1 cDancingUpper "t2" =
      ((add_song_to_db [] cDancing "t1").1, false) ∧
    (get_all_songs
        (add_song_to_db (add_song_to_db [] cDancing "t1").1
          cDancingUpper "t2").1).length =
      (get_all_songs (add_song_to_db [] cDancing "t1").1).length :=
  spec_C6 [] cDancing cDancingUpper "t1" "t2" (by decide) (by decide)

/-- C4 counterexample: the claim says a record with an unparseable
`added_at` sorts as if the key were the empty string, i.e. last in the
descending order.  In the code no parsing happens: `get_all_songs` keys on
the raw string `x.get("added_at", "")`, so the record carrying the
unparseable value "not-a-date" compares above the ISO timestamp
"2024-05-05T10:00:00" and comes first, not last. -/
theorem spec_C4_counterexample :
    get_all_songs [songIso, songGarbage] = [songGarbage, songIso] ∧
    songGarbage.added_at = some "not-a-date" ∧
    sortKey songGarbage ≠ "" ∧
    (get_all_songs [songIso, songGarbage]).getLast? = some songIso := by
  refine ⟨by decide, rfl, by decide, by decide⟩

/-- C4 (amended): `get_all_songs` returns all stored records (a
permutation of the table) ordered by the raw string key
`x.get("added_at", "")` descending, so `added_at` values are non-increasing
along the output; a record missing `added_at` takes the key `""`, which is
minimal for the order and therefore sorts last; a present `added_at` —
parseable or not — is compared by its literal string value. -/
theorem spec_C4 (db : List Song) :
    (get_all_songs db).Perm db ∧
    List.Sorted songDescOrder (get_all_songs db) ∧
    (∀ s : Song, s.added_at = none → sortKey s = "") ∧
    (∀ t : String, strLe "" t = true) := by
  refine ⟨get_all_songs_perm db, List.sorted_insertionSort songDescOrder db,
    ?_, strLe_empty_left⟩
  intro s h
  simp [sortKey, h]

/-- C4 witness: the amended statement exercised on a concrete two-record
store, with the missing-key case instantiated. -/
theorem spec_C4_witness :
    (get_all_songs [songIso, songGarbage]).Perm [songIso, songGarbage] ∧
    List.Sorted songDescOrder (get_all_songs [songIso, songGarbage]) ∧
    sortKey songNoDate = "" ∧
    strLe "" "2024-05-05T10:00:00" = true :=
  ⟨(spec_C4 [songIso, songGarbage]).1,
   (spec_C4 [songIso, songGarbage]).2.1,
   (spec_C4 [songIso, songGarbage]).2.2.1 songNoDate rfl,
   (spec_C4 [songIso, songGarbage]).2.2.2 "2024-05-05T10:00:00"⟩

/-- C7: the confirm-yes flow calls `backup_to_sheets` exactly when the
local insert committed (so the backup runs only after the write), and the
backup environment — client missing or append raising — influences neither
the resulting table nor the message shown for the insert; by its type,
`backup_to_sheets` never receives or returns the table. -/
theorem spec_C7 (db : List Song) (song : Candidate) (now now2 : String)
    (env1 env2 : BackupEnv) :
    ((confirm_add db song now now2 env1).db =
        (confirm_add db song now now2 env2).db ∧
      (confirm_add db song now now2 env1).msg =
        (confirm_add db song now now2 env2).msg) ∧
    ((confirm_add db song now now2 env1).backupCalled = true →
      (add_song_to_db db song now).2 = true ∧
      (confirm_add db song now now2 env1).db =
        (add_song_to_db db song now).1) := by
  cases hd : song_exists db song.title song.artist with
  | true =>
    simp [confirm_add, hd]
  | false =>
    have h1 := add_song_to_db_of_not_exists db song now hd
    simp [confirm_add, hd, h1]

/-- C7 witness: a failing backup environment and a working one produce the
same table and message, and the backup ran only because the insert
committed. -/
theorem spec_C7_witness :
    ((confirm_add [] cDancing "t1" "t2" ⟨false, false⟩).db =
        (confirm_add [] cDancing "t1" "t2" ⟨true, true⟩).db ∧
      (confirm_add [] cDancing "t1" "t2" ⟨false, false⟩).msg =
        (confirm_add [] cDancing "t1" "t2" ⟨true, true⟩).msg) ∧
    ((add_song_to_db [] cDancing "t1").2 = true ∧
      (confirm_add [] cDancing "t1" "t2" ⟨false, false⟩).db =
        (add_song_to_db [] cDancing "t1").1) :=
  ⟨(spec_C7 [] cDancing "t1" "t2" ⟨false, false⟩ ⟨true, true⟩).1,
   (spec_C7 [] cDancing "t1" "t2" ⟨false, false⟩ ⟨true, true⟩).2 (by decide)⟩

/-- C8: a token-fetch failure yields the `serviceUnavailable` outcome,
while a successful token with a search that finds nothing yields the
`noMatch` outcome; the outcomes are distinct constructors and `main` shows
a different message for each in both languages. -/
theorem spec_C8 (q tokBody : String) (tokStatus : Nat) (resp : SpResponse) :
    (get_spotify_token tokStatus tokBody = none →
      handle_search q tokStatus tokBody resp =
        SearchOutcome.serviceUnavailable) ∧
    (pyTruthy (get_spotify_token tokStatus tokBody) = true →
      resp.status = 200 → resp.items = [] →
      handle_search q tokStatus tokBody resp = SearchOutcome.noMatch) ∧
    SearchOutcome.serviceUnavailable ≠ SearchOutcome.noMatch ∧
    search_error_message LANGUAGES_en SearchOutcome.serviceUnavailable ≠
      search_error_message LANGUAGES_en SearchOutcome.noMatch ∧
    search_error_message LANGUAGES_da SearchOutcome.serviceUnavailable ≠
      search_error_message LANGUAGES_da SearchOutcome.noMatch := by
  refine ⟨?_, ?_, by decide, by decide, by decide⟩
  · intro h
    simp [handle_search, h, pyTruthy]
  · intro ht hs hi
    cases htok : get_spotify_token tokStatus tokBody with
    | none =>
      rw [htok] at ht
      simp [pyTruthy] at ht
    | some s =>
      rw [htok] at ht
      simp only [pyTruthy, Bool.not_eq_true'] at ht
      simp [handle_search, htok, pyTruthy, ht, search_spotify_song, hs, hi]

/-- C8 witness: a 503 from the token endpoint reports the service
unavailable; a good token with an empty result list reports no match. -/
theorem spec_C8_witness :
    handle_search "waterloo" 503 "" ⟨200, []⟩ =
      SearchOutcome.serviceUnavailable ∧
    handle_search "waterloo" 200 "tok" ⟨200, []⟩ = SearchOutcome.noMatch :=
  ⟨(spec_C8 "waterloo" "" 503 ⟨200, []⟩).1 (by decide),
   (spec_C8 "waterloo" "tok" 200 ⟨200, []⟩).2.1 (by decide) rfl rfl⟩

/-- C9: the resolver returns at most one candidate — `none` (the no-match
signal) or exactly the first returned track, with the artist names joined
by ", ", the album, the optional first image URL, the canonical external
URL and the optional preview URL — and the service is queried with a
result limit of one. -/
theorem spec_C9 (q token : String) (resp : SpResponse) :
    (search_spotify_song q token resp = none ∨
      ∃ track rest, resp.items = track :: rest ∧
        search_spotify_song q token resp = some
          { title := track.name,
            artist := String.intercalate ", " track.artist_names,
            album := track.album_name,
            image_url := track.album_images.head?,
            spotify_url := track.external_url,
            preview_url := track.preview_url }) ∧
    (search_params q).lookup "limit" = some "1" := by
  refine ⟨?_, rfl⟩
  by_cases he : token.isEmpty
  · left
    simp [search_spotify_song, he]
  · by_cases hs : resp.status = 200
    · cases hi : resp.items with
      | nil =>
        left
        simp [search_spotify_song, he, hs, hi]
      | cons track rest =>
        right
        exact ⟨track, rest, rfl, by
          simp [search_spotify_song, he, hs, hi, track_to_candidate]⟩
    · left
      simp [search_spotify_song, he, hs]

/-- C10: an accepted candidate is persisted verbatim — every candidate
field, including the letter case of title and artist, is stored unchanged —
and the only fields the store adds are `added_at` and `id`. -/
theorem spec_C10 (db : List Song) (c : Candidate) (now : String)
    (h : song_exists db c.title c.artist = false) :
    ∃ s : Song, (add_song_to_db db c now).1 = db ++ [s] ∧
      s.title = c.title ∧ s.artist = c.artist ∧ s.album = c.album ∧
      s.image_url = c.image_url ∧ s.spotify_url = c.spotify_url ∧
      s.preview_url = c.preview_url ∧
      s.added_at = some now ∧ s.id = db.length + 1 := by
  refine ⟨mkEntry c now (db.length + 1), ?_, rfl, rfl, rfl, rfl, rfl, rfl,
    rfl, rfl⟩
  rw [add_song_to_db_of_not_exists db c now h]

/-- C10 witness: the mixed-case Dancing Queen candidate is stored with its
case intact. -/
theorem spec_C10_witness :
    ∃ s : Song, (add_song_to_db [] cDancing "t1").1 = [] ++ [s] ∧
      s.title = cDancing.title ∧ s.artist = cDancing.artist ∧
      s.album = cDancing.album ∧ s.image_url = cDancing.image_url ∧
      s.spotify_url = cDancing.spotify_url ∧
      s.preview_url = cDancing.preview_url ∧
      s.added_at = some "t1" ∧ s.id = 1 :=
  spec_C10 [] cDancing "t1" (by decide)

end MumsDisco
